import Mathlib

/-!
Verification of the Pong physics core (paddle.py, ball.py, game.py).

Modelling conventions:
 - pixel coordinates and velocities are integers (ℤ).  The Python code keeps
   the ball position as a float, but every reachable position is obtained from
   an integer start by adding unit steps, and pygame.Rect truncates to int, so
   the integer model is exact on the states the claims quantify over.
 - pygame.Rect.colliderect is the strict-overlap test of the pygame C source:
   zero-sized rectangles never collide, otherwise the four strict inequalities.
 - random.choice draws are passed in as explicit parameters (jitter values,
   spawn speed, spawn vertical velocity); theorems quantify over them with the
   membership constraints of the corresponding choice set.
 - np.clip(v, lo, hi) with lo ≤ hi is max lo (min hi v).
 - a Python function without a return statement returns None; this is modelled
   with an Option-valued field (none).
-/

namespace Pong

/-- Axis-aligned rectangle with integer coordinates, as pygame.Rect. -/
structure Rect where
  x : ℤ
  y : ℤ
  w : ℤ
  h : ℤ
deriving DecidableEq

/-- pygame Rect.colliderect (C function of pygame): zero-sized
rectangles collide with nothing; otherwise strict overlap on both axes. -/
def Rect.colliderect (a b : Rect) : Bool :=
  if a.w = 0 ∨ a.h = 0 ∨ b.w = 0 ∨ b.h = 0 then false
  else decide (a.x < b.x + b.w ∧ a.y < b.y + b.h ∧ a.x + a.w > b.x ∧ a.y + a.h > b.y)

/-- np.clip(v, lo, hi) for lo ≤ hi. -/
def clip (v lo hi : ℤ) : ℤ := max lo (min hi v)

/-- paddle.py Paddle: x fixed, y mutable; rect is kept in sync with (x, y)
by move, so it is derived here. speed is 15 in the source constructor. -/
structure Paddle where
  x : ℤ
  y : ℤ
  width : ℤ
  height : ℤ
  window_height : ℤ
  speed : ℤ
deriving DecidableEq

/-- The bounding rectangle of a paddle (kept in sync by the source). -/
def Paddle.rect (p : Paddle) : Rect := ⟨p.x, p.y, p.width, p.height⟩

/-- paddle.py Paddle.move: asserts direction ∈ {0,1,2} (none is the failed
assert); direction 0 is a no-op; 1 tries y - speed, 2 tries y + speed, and the
tentative position is accepted only when it lies in [0, window_height - height],
otherwise y is left unchanged. -/
def Paddle.move (p : Paddle) (direction : ℕ) : Option Paddle :=
  if direction = 0 then some p
  else if direction = 1 then
    let new_y := p.y - p.speed
    some (if 0 ≤ new_y ∧ new_y ≤ p.window_height - p.height then
      { p with y := new_y } else p)
  else if direction = 2 then
    let new_y := p.y + p.speed
    some (if 0 ≤ new_y ∧ new_y ≤ p.window_height - p.height then
      { p with y := new_y } else p)
  else none

/-- ball.py Ball state. max_speed is 30 in the source constructor; rect is
kept equal to Rect(x, y, width, height) by spawn and move, so it is derived. -/
structure Ball where
  height : ℤ
  width : ℤ
  window_height : ℤ
  window_width : ℤ
  max_speed : ℤ
  last_serve_left : Bool
  x : ℤ
  y : ℤ
  vx : ℤ
  vy : ℤ
deriving DecidableEq

/-- The bounding rectangle of the ball (kept in sync by spawn and move). -/
def Ball.rect (b : Ball) : Rect := ⟨b.x, b.y, b.width, b.height⟩

/-- ball.py Ball.get_step_increment: 1 for positive velocity, -1 otherwise. -/
def get_step_increment (vel : ℤ) : ℤ := if vel > 0 then 1 else -1

/-- ball.py Ball.spawn, with the two random draws as parameters
(speed from {10,12,14}, vy0 from {-6,-4,-2,2,4,6}): recenters the ball,
flips the serve-side flag first and then takes the sign of vx from the
flipped flag. -/
def Ball.spawn (b : Ball) (speed vy0 : ℤ) : Ball :=
  let serve_left := !b.last_serve_left
  { b with
    x := b.window_width / 2
    y := b.window_height / 2
    last_serve_left := serve_left
    vx := if serve_left then -speed else speed
    vy := vy0 }

/-- The vertical sweep loop of ball.py Ball.move (lines 65..79), fuel-indexed
by the remaining iterations of range(abs(int(vy))).  Arguments after the fixed
data: remaining iterations, current y, current vy.  Returns (final y, final vy).
The bounds check runs only when the early-collision guard is off; the paddle
overlap check runs unconditionally, using the x of the previous frame. -/
def vsweep (pa pb : Rect) (w h H M x ystep jv : ℤ) (early : Bool) :
    ℕ → ℤ → ℤ → ℤ × ℤ
  | 0, y, vy => (y, vy)
  | n + 1, y, vy =>
    let ny := y + ystep
    if early = false ∧ ¬(0 ≤ ny ∧ ny ≤ H - h) then
      (ny, clip (vy * -1 + jv) (-M) M)
    else if Rect.colliderect ⟨x, ny, w, h⟩ pa || Rect.colliderect ⟨x, ny, w, h⟩ pb then
      (ny, clip (vy + jv) (-M) M)
    else
      vsweep pa pb w h H M x ystep jv early n ny vy

/-- The horizontal sweep loop of ball.py Ball.move (lines 82..93), fuel-indexed
by the remaining iterations of range(abs(int(vx))); y is the value produced by
the vertical sweep.  Arguments after the fixed data: remaining iterations,
current x, current vx, current vy.  Returns (final x, final vx, final vy).
All collision handling is skipped when the early-collision guard is on. -/
def hsweep (pa pb : Rect) (w h M xstep jh : ℤ) (early : Bool) (y : ℤ) :
    ℕ → ℤ → ℤ → ℤ → ℤ × ℤ × ℤ
  | 0, x, vx, vy => (x, vx, vy)
  | n + 1, x, vx, vy =>
    let nx := x + xstep
    if early = false ∧
        (Rect.colliderect ⟨nx, y, w, h⟩ pa || Rect.colliderect ⟨nx, y, w, h⟩ pb) = true then
      (nx, clip ((vx + xstep) * -1) (-M) M, clip (vy + jh) (-M) M)
    else
      hsweep pa pb w h M xstep jh early y n nx vx vy

/-- ball.py Ball.move, with the two possible random jitter draws as parameters
(jv for the single draw the vertical sweep can make, jh for the single draw the
horizontal sweep can make; each is ±1 in the source).  pa and pb are the
current rectangles of the two paddles. -/
def Ball.move (b : Ball) (pa pb : Rect) (jv jh : ℤ) : Ball :=
  let x_step := get_step_increment b.vx
  let y_step := get_step_increment b.vy
  let early := Rect.colliderect b.rect pa || Rect.colliderect b.rect pb
  let v := vsweep pa pb b.width b.height b.window_height b.max_speed b.x y_step jv
    early b.vy.natAbs b.y b.vy
  let hr := hsweep pa pb b.width b.height b.max_speed x_step jh early v.1
    b.vx.natAbs b.x b.vx v.2
  { b with x := hr.1, y := v.1, vx := hr.2.1, vy := hr.2.2 }

/-- game.py PongGame state (the fields the simulation core reads or writes;
rendering state is out of scope). -/
structure PongGame where
  window_width : ℤ
  window_height : ℤ
  step_repeat : ℕ
  player_1_score : ℤ
  player_2_score : ℤ
  top_score : ℤ
  player_1_paddle : Paddle
  player_2_paddle : Paddle
  ball : Ball
deriving DecidableEq

/-- game.py PongGame._step: moves both paddles (whose asserts can fail, hence
Option), then moves the ball against the updated paddle rectangles.
Drawing and display calls have no effect on the modelled state. -/
def PongGame.substep (g : PongGame) (a1 a2 : ℕ) (jv jh : ℤ) : Option PongGame :=
  match g.player_1_paddle.move a1, g.player_2_paddle.move a2 with
  | some p1, some p2 =>
      some { g with
        player_1_paddle := p1
        player_2_paddle := p2
        ball := g.ball.move p1.rect p2.rect jv jh }
  | _, _ => none

/-- The for-loop of game.py PongGame.step over range(step_repeat): one _step
per element of js, each element carrying the (jv, jh) random draws of that
sub-frame.  Theorems tie the length of js to step_repeat. -/
def stepRepeats (a1 a2 : ℕ) : List (ℤ × ℤ) → PongGame → Option PongGame
  | [], g => some g
  | j :: rest, g =>
    match g.substep a1 a2 j.1 j.2 with
    | some g2 => stepRepeats a1 a2 rest g2
    | none => none

/-- game.py PongGame.step line 250: ball_center = ball.x + ball.width / 2,
a float in the source, exact as a rational here. -/
def ball_center (b : Ball) : ℚ := (b.x : ℚ) + (b.width : ℚ) / 2

/-- The outcome of game.py PongGame.step: the mutated game state, the local
variables player_1_reward / player_2_reward / done computed in the body
(info is the empty dict and truncated is never used, both elided), and ret,
the Python return value of the function.  The source has no return statement,
so ret is always none. -/
structure StepResult where
  game : PongGame
  player_1_reward : ℤ
  player_2_reward : ℤ
  done : Bool
  ret : Option (ℤ × ℤ × Bool)
deriving DecidableEq

/-- game.py PongGame.step: runs step_repeat sub-frames, then the scoring
branch on the horizontal center of the ball; speed and vy0 are the random
draws a respawn would use.  The rewards and done are locals of the source
body; ret = none models the absent return statement. -/
def PongGame.step (g : PongGame) (a1 a2 : ℕ) (js : List (ℤ × ℤ))
    (speed vy0 : ℤ) : Option StepResult :=
  match stepRepeats a1 a2 js g with
  | none => none
  | some g2 =>
    if ball_center g2.ball < 0 then
      some { game := { g2 with
               player_1_score := g2.player_1_score + 1
               ball := g2.ball.spawn speed vy0 }
             player_1_reward := 1, player_2_reward := -1
             done := false, ret := none }
    else if ball_center g2.ball > (g2.window_width : ℚ) then
      some { game := { g2 with
               player_2_score := g2.player_2_score + 1
               ball := g2.ball.spawn speed vy0 }
             player_1_reward := -1, player_2_reward := 1
             done := false, ret := none }
    else
      some { game := g2, player_1_reward := 0, player_2_reward := 0
             done := false, ret := none }

/-! ## General lemmas about the embedded operations -/

/-- clip lands in [lo, hi] whenever lo ≤ hi. -/
lemma clip_range (v lo hi : ℤ) (h : lo ≤ hi) : lo ≤ clip v lo hi ∧ clip v lo hi ≤ hi := by
  unfold clip
  exact ⟨le_max_left _ _, max_le h (min_le_left _ _)⟩

/-- The unit step is always 1 or -1. -/
lemma get_step_increment_cases (v : ℤ) :
    get_step_increment v = 1 ∨ get_step_increment v = -1 := by
  unfold get_step_increment
  split_ifs <;> simp

/-- |v| unit steps in the direction of v cover exactly v. -/
lemma natAbs_mul_step (v : ℤ) : (v.natAbs : ℤ) * get_step_increment v = v := by
  unfold get_step_increment
  split_ifs with h <;> omega

/-! ## C9: Paddle.move stays in bounds, rejection rather than saturation -/

/-- Claim C9: for a paddle with 0 ≤ y ≤ window_height - height and a
direction d in {0,1,2}, Paddle.move d succeeds and keeps y in
[0, window_height - height]; direction 0 leaves y unchanged, and for 1 and 2
the tentative position y - speed resp. y + speed is taken exactly when it
lies within the bounds, otherwise y is left completely unchanged. -/
theorem C9_paddle_move_bounds (p : Paddle) (d : ℕ)
    (hd : d = 0 ∨ d = 1 ∨ d = 2)
    (hy0 : 0 ≤ p.y) (hy1 : p.y ≤ p.window_height - p.height) :
    ∃ q : Paddle, p.move d = some q ∧
      0 ≤ q.y ∧ q.y ≤ p.window_height - p.height ∧
      (d = 0 → q.y = p.y) ∧
      (d = 1 → q.y = if 0 ≤ p.y - p.speed ∧ p.y - p.speed ≤ p.window_height - p.height
        then p.y - p.speed else p.y) ∧
      (d = 2 → q.y = if 0 ≤ p.y + p.speed ∧ p.y + p.speed ≤ p.window_height - p.height
        then p.y + p.speed else p.y) := by
  rcases hd with rfl | rfl | rfl
  · exact ⟨p, rfl, hy0, hy1, fun _ => rfl, by simp, by simp⟩
  · have e : p.move 1 = some (if 0 ≤ p.y - p.speed ∧ p.y - p.speed ≤ p.window_height - p.height
        then { p with y := p.y - p.speed } else p) := rfl
    by_cases h : 0 ≤ p.y - p.speed ∧ p.y - p.speed ≤ p.window_height - p.height
    · exact ⟨{ p with y := p.y - p.speed }, by rw [e, if_pos h], h.1, h.2, by simp,
        fun _ => by rw [if_pos h], by simp⟩
    · exact ⟨p, by rw [e, if_neg h], hy0, hy1, by simp, fun _ => by rw [if_neg h], by simp⟩
  · have e : p.move 2 = some (if 0 ≤ p.y + p.speed ∧ p.y + p.speed ≤ p.window_height - p.height
        then { p with y := p.y + p.speed } else p) := rfl
    by_cases h : 0 ≤ p.y + p.speed ∧ p.y + p.speed ≤ p.window_height - p.height
    · exact ⟨{ p with y := p.y + p.speed }, by rw [e, if_pos h], h.1, h.2, by simp, by simp,
        fun _ => by rw [if_pos h]⟩
    · exact ⟨p, by rw [e, if_neg h], hy0, hy1, by simp, by simp, fun _ => by rw [if_neg h]⟩

/-- The paddle of the C9 scenario: y = 0, the upper bound, with the source
constructor constants (width 20, height 120, speed 15) in a 720-high arena. -/
def pC9 : Paddle := ⟨50, 0, 20, 120, 720, 15⟩

/-- Witness for C9 at the scenario of the spec: a paddle at y = 0 receiving
move 1 (up) stays at y = 0, and the result is in bounds. -/
theorem C9_witness :
    ∃ q : Paddle, pC9.move 1 = some q ∧
      0 ≤ q.y ∧ q.y ≤ pC9.window_height - pC9.height ∧
      (1 = 0 → q.y = pC9.y) ∧
      (1 = 1 → q.y = if 0 ≤ pC9.y - pC9.speed ∧ pC9.y - pC9.speed ≤ pC9.window_height - pC9.height
        then pC9.y - pC9.speed else pC9.y) ∧
      (1 = 2 → q.y = if 0 ≤ pC9.y + pC9.speed ∧ pC9.y + pC9.speed ≤ pC9.window_height - pC9.height
        then pC9.y + pC9.speed else pC9.y) :=
  C9_paddle_move_bounds pC9 1 (Or.inr (Or.inl rfl)) (by decide) (by decide)

/-! ## C10: spawn strictly alternates the serve side -/

/-- Claim C10: two consecutive spawns produce initial horizontal velocities of
opposite sign, for any speeds drawn from {10,12,14}: spawn flips the
serve-side flag and takes the sign of vx from the flipped flag. -/
theorem C10_serve_alternation (b : Ball) (s1 s2 v1 v2 : ℤ)
    (h1 : s1 = 10 ∨ s1 = 12 ∨ s1 = 14) (h2 : s2 = 10 ∨ s2 = 12 ∨ s2 = 14) :
    ((b.spawn s1 v1).vx) * (((b.spawn s1 v1).spawn s2 v2).vx) < 0 := by
  rcases h1 with rfl | rfl | rfl <;> rcases h2 with rfl | rfl | rfl <;>
    cases hb : b.last_serve_left <;> simp [Ball.spawn, hb]

/-- A concrete ball for the C10 witness. -/
def bC10 : Ball := ⟨10, 10, 720, 1080, 30, true, 540, 360, 10, 2⟩

/-- Witness for C10: two consecutive spawns from a concrete ball state give
opposite-sign vx. -/
theorem C10_witness :
    ((bC10.spawn 10 2).vx) * (((bC10.spawn 10 2).spawn 12 (-4)).vx) < 0 :=
  C10_serve_alternation bC10 10 12 2 (-4) (Or.inl rfl) (Or.inr (Or.inl rfl))

/-! ## C4: horizontal paddle reflection -/

/-- Claim C4: in the horizontal sweep (which only checks collisions when the
early-collision guard is off), a tentative rectangle overlapping a paddle
makes the sweep stop after that one step, with new vx equal to
clip (-(vx + step)) into [-M, M] (step the unit step of vx) and vy jittered
and clamped; the new vx has the sign opposite to the old vx and magnitude at
most M. -/
theorem C4_horizontal_paddle_reflection (pa pb : Rect) (w h M jh y : ℤ) (n : ℕ)
    (x vx vy : ℤ) (hM : 0 < M)
    (hc : (Rect.colliderect ⟨x + get_step_increment vx, y, w, h⟩ pa ||
           Rect.colliderect ⟨x + get_step_increment vx, y, w, h⟩ pb) = true) :
    hsweep pa pb w h M (get_step_increment vx) jh false y (n + 1) x vx vy =
      (x + get_step_increment vx,
       clip ((vx + get_step_increment vx) * -1) (-M) M,
       clip (vy + jh) (-M) M) ∧
    (0 < vx → clip ((vx + get_step_increment vx) * -1) (-M) M < 0) ∧
    (vx < 0 → 0 < clip ((vx + get_step_increment vx) * -1) (-M) M) ∧
    -M ≤ clip ((vx + get_step_increment vx) * -1) (-M) M ∧
    clip ((vx + get_step_increment vx) * -1) (-M) M ≤ M := by
  refine ⟨?_, ?_, ?_, (clip_range _ _ _ (by omega)).1, (clip_range _ _ _ (by omega)).2⟩
  · simp only [hsweep]
    rw [if_pos ⟨trivial, hc⟩]
  · intro hpos
    have hstep1 : get_step_increment vx = 1 := by unfold get_step_increment; simp [hpos]
    rw [hstep1]
    unfold clip
    omega
  · intro hneg
    have hstep : get_step_increment vx = -1 := by
      unfold get_step_increment
      rw [if_neg (by omega)]
    rw [hstep]
    unfold clip
    omega

/-- Left paddle rectangle for the C4 witness (reset geometry of game.py). -/
def paC4 : Rect := ⟨50, 300, 20, 120⟩

/-- Right paddle rectangle for the C4 witness. -/
def pbC4 : Rect := ⟨1010, 300, 20, 120⟩

/-- Witness for C4: a ball one unit left of the left paddle, moving right with
vx = 5, bounces: the sweep stops after one step at x = 46, the new vx is
clip (-(5+1)) = -6 (sign flipped, within [-30, 30]), vy is jittered to 3. -/
theorem C4_witness :
    hsweep paC4 pbC4 10 10 30 (get_step_increment 5) 1 false 350 5 45 5 2 =
      (46, -6, 3) ∧
    (0 < (5 : ℤ) → (-6 : ℤ) < 0) ∧
    ((5 : ℤ) < 0 → (0 : ℤ) < -6) ∧
    (-30 : ℤ) ≤ -6 ∧ (-6 : ℤ) ≤ 30 :=
  C4_horizontal_paddle_reflection paC4 pbC4 10 10 30 1 350 4 45 5 2 (by decide) (by decide)

/-! ## C3: vertical paddle collision (corrected: jitter only, no negation) -/

/-- Ball for the C3 counterexample: just above the left paddle, inside its
x-range, falling with vy = 4 (vx = 0 so the horizontal sweep is empty). -/
def bC3 : Ball := ⟨10, 10, 720, 1080, 30, true, 55, 289, 0, 4⟩

/-- Left paddle rectangle for C3. -/
def paC3 : Rect := ⟨50, 300, 20, 120⟩

/-- Right paddle rectangle for C3. -/
def pbC3 : Rect := ⟨1010, 300, 20, 120⟩

/-- Counterexample to claim C3: the ball at (55, 289) with vy = 4 does not
overlap a paddle at frame start, lands on the left paddle during the vertical
sweep (tentative rectangle at y = 291 overlaps it), and with jitter +1 the
code leaves vy = clip (4 + 1) = 5.  The claimed wall-style reflection
(negate, then jitter, then clamp) would give clip (-4 + 1) = -3 (or -5 with
jitter -1): vy is not negated by the vertical paddle branch. -/
theorem C3_counterexample :
    (Rect.colliderect bC3.rect paC3 || Rect.colliderect bC3.rect pbC3) = false ∧
    Rect.colliderect ⟨55, 291, 10, 10⟩ paC3 = true ∧
    (Ball.move bC3 paC3 pbC3 1 1).vy = 5 ∧
    (5 : ℤ) ≠ clip (bC3.vy * -1 + 1) (-30) 30 ∧
    (5 : ℤ) ≠ clip (bC3.vy * -1 + (-1)) (-30) 30 := by
  decide

/-- Claim C3 as amended: during the vertical sweep the paddle-overlap check
runs regardless of the early-collision guard, using the x of the previous
frame; when the tentative rectangle overlaps a paddle the sweep stops at that
step and vy becomes clip (vy + jitter) — the jitter is added to the current
vy without negating it (unlike the wall branch, which negates first). -/
theorem C3_vertical_paddle_jitter (pa pb : Rect) (w h H M x ystep jv : ℤ)
    (early : Bool) (n : ℕ) (y vy : ℤ)
    (hb : early = false → 0 ≤ y + ystep ∧ y + ystep ≤ H - h)
    (hc : (Rect.colliderect ⟨x, y + ystep, w, h⟩ pa ||
           Rect.colliderect ⟨x, y + ystep, w, h⟩ pb) = true) :
    vsweep pa pb w h H M x ystep jv early (n + 1) y vy =
      (y + ystep, clip (vy + jv) (-M) M) := by
  have h1 : ¬(early = false ∧ ¬(0 ≤ y + ystep ∧ y + ystep ≤ H - h)) := by
    rintro ⟨he, hnb⟩
    exact hnb (hb he)
  simp only [vsweep]
  rw [if_neg h1, if_pos hc]

/-- Witness for C3: the amended statement at the concrete counterexample
inputs; the sweep stops at y = 291 with vy = clip (4 + 1) = 5. -/
theorem C3_witness :
    vsweep paC3 pbC3 10 10 720 30 55 1 1 false 3 290 4 = (291, 5) :=
  C3_vertical_paddle_jitter paC3 pbC3 10 10 720 30 55 1 1 false 2 290 4
    (by decide) (by decide)

/-! ## C1: behaviour under the early-collision guard (corrected) -/

/-- With the early-collision guard on, the horizontal sweep takes all its
steps and changes nothing but x. -/
lemma hsweep_early_run (pa pb : Rect) (w h M xstep jh y : ℤ) :
    ∀ (n : ℕ) (x vx vy : ℤ),
      hsweep pa pb w h M xstep jh true y n x vx vy = (x + n * xstep, vx, vy) := by
  intro n
  induction n with
  | zero => intro x vx vy; simp [hsweep]
  | succ k ih =>
    intro x vx vy
    simp only [hsweep]
    rw [if_neg (by simp), ih]
    refine Prod.ext ?_ rfl
    push_cast
    ring

/-- With the early-collision guard on, the vertical sweep leaves vy unchanged
unless a tentative rectangle overlaps a paddle, in which case vy is jittered
and clamped. -/
lemma vsweep_early_vy (pa pb : Rect) (w h H M x ystep jv : ℤ) :
    ∀ (n : ℕ) (y vy : ℤ),
      (vsweep pa pb w h H M x ystep jv true n y vy).2 = vy ∨
      (vsweep pa pb w h H M x ystep jv true n y vy).2 = clip (vy + jv) (-M) M := by
  intro n
  induction n with
  | zero => intro y vy; exact Or.inl rfl
  | succ k ih =>
    intro y vy
    simp only [vsweep]
    rw [if_neg (by simp)]
    by_cases hc : (Rect.colliderect ⟨x, y + ystep, w, h⟩ pa ||
        Rect.colliderect ⟨x, y + ystep, w, h⟩ pb) = true
    · rw [if_pos hc]
      exact Or.inr rfl
    · rw [if_neg hc]
      exact ih (y + ystep) vy

/-- Ball for the C1 counterexample: embedded in the left paddle with vy = 2,
so the early guard is on, yet the vertical paddle check still fires. -/
def bC1 : Ball := ⟨10, 10, 720, 1080, 30, true, 55, 305, 10, 2⟩

/-- Left paddle rectangle for C1. -/
def paC1 : Rect := ⟨50, 300, 20, 120⟩

/-- Right paddle rectangle for C1. -/
def pbC1 : Rect := ⟨1010, 300, 20, 120⟩

/-- Counterexample to claim C1: the ball at (55, 305) overlaps the left paddle
at frame start (the early guard is on), yet the frame is not reflection-free:
with jitter +1 the vertical paddle check changes vy from 2 to 3 and stops the
vertical sweep after one step, so y advances by 1 instead of vy = 2. -/
theorem C1_counterexample :
    (Rect.colliderect bC1.rect paC1 || Rect.colliderect bC1.rect pbC1) = true ∧
    (Ball.move bC1 paC1 pbC1 1 1).vy ≠ bC1.vy ∧
    (Ball.move bC1 paC1 pbC1 1 1).y ≠ bC1.y + bC1.vy := by
  decide

/-- Claim C1 as amended: when the ball already overlaps a paddle at the start
of move, the frame suppresses the vertical bounds check and all horizontal
collision handling — vx is unchanged and x advances by exactly vx — but the
vertical paddle-overlap check still runs, so vy is either unchanged or
jittered and clamped (and in the latter case the vertical sweep stopped
early). -/
theorem C1_early_guard_passthrough (b : Ball) (pa pb : Rect) (jv jh : ℤ)
    (he : (Rect.colliderect b.rect pa || Rect.colliderect b.rect pb) = true) :
    (b.move pa pb jv jh).vx = b.vx ∧
    (b.move pa pb jv jh).x = b.x + b.vx ∧
    ((b.move pa pb jv jh).vy = b.vy ∨
     (b.move pa pb jv jh).vy = clip (b.vy + jv) (-b.max_speed) b.max_speed) := by
  simp only [Ball.move, he, hsweep_early_run]
  refine ⟨trivial, ?_, ?_⟩
  · rw [natAbs_mul_step]
  · exact vsweep_early_vy pa pb b.width b.height b.window_height b.max_speed b.x
      (get_step_increment b.vy) jv b.vy.natAbs b.y b.vy

/-- Witness for C1: the amended statement at the concrete embedded-ball input;
vx stays 10, x advances to 65, vy ends as 2 or clip (2+1) = 3. -/
theorem C1_witness :
    (Ball.move bC1 paC1 pbC1 1 1).vx = bC1.vx ∧
    (Ball.move bC1 paC1 pbC1 1 1).x = bC1.x + bC1.vx ∧
    ((Ball.move bC1 paC1 pbC1 1 1).vy = bC1.vy ∨
     (Ball.move bC1 paC1 pbC1 1 1).vy = clip (bC1.vy + 1) (-bC1.max_speed) bC1.max_speed) :=
  C1_early_guard_passthrough bC1 paC1 pbC1 1 1 (by decide)

/-! ## C2: vertical bounds after move (corrected: one-pixel overshoot) -/

/-- With the early-collision guard off, the vertical sweep started inside
[0, H - h] ends in [-1, H - h + 1]: the bounds check breaks only after the
out-of-bounds tentative y has already been taken, and that y is committed. -/
lemma vsweep_y_range (pa pb : Rect) (w h H M x ystep jv : ℤ)
    (hstep : ystep = 1 ∨ ystep = -1) :
    ∀ (n : ℕ) (y vy : ℤ), 0 ≤ y → y ≤ H - h →
      -1 ≤ (vsweep pa pb w h H M x ystep jv false n y vy).1 ∧
      (vsweep pa pb w h H M x ystep jv false n y vy).1 ≤ H - h + 1 := by
  intro n
  induction n with
  | zero =>
    intro y vy h0 h1
    simp only [vsweep]
    exact ⟨by omega, by omega⟩
  | succ k ih =>
    intro y vy h0 h1
    simp only [vsweep]
    by_cases hb : 0 ≤ y + ystep ∧ y + ystep ≤ H - h
    · rw [if_neg (by simp [hb])]
      by_cases hc : (Rect.colliderect ⟨x, y + ystep, w, h⟩ pa ||
          Rect.colliderect ⟨x, y + ystep, w, h⟩ pb) = true
      · rw [if_pos hc]
        exact ⟨by omega, by omega⟩
      · rw [if_neg hc]
        exact ih (y + ystep) vy hb.1 hb.2
    · rw [if_pos (by simp [hb])]
      rcases hstep with rfl | rfl <;> exact ⟨by omega, by omega⟩

/-- Ball for the C2 counterexample: one pixel below the top wall, moving up
with vy = -4, both paddles far away; its state satisfies the claimed vertical
invariant before the move. -/
def bC2 : Ball := ⟨10, 10, 720, 1080, 30, true, 540, 1, 10, -4⟩

/-- Left paddle rectangle for C2. -/
def paC2 : Rect := ⟨50, 300, 20, 120⟩

/-- Right paddle rectangle for C2. -/
def pbC2 : Rect := ⟨1010, 300, 20, 120⟩

/-- Counterexample to claim C2: from the in-bounds state y = 1 (arena height
720, ball height 10, bounds [0, 710]) with vy = -4, one call to move ends
with y = -1: the wall branch breaks only after committing the out-of-bounds
tentative y, so the ball leaves the vertical bounds. -/
theorem C2_counterexample :
    (0 ≤ bC2.y ∧ bC2.y ≤ bC2.window_height - bC2.height) ∧
    (Ball.move bC2 paC2 pbC2 1 1).y < 0 := by
  decide

/-- Claim C2 as amended: from any state with y within [0, window_height -
height] whose ball does not already overlap a paddle, a move ends with y in
[-1, window_height - height + 1]: the vertical position can overshoot each
bound by exactly one pixel at a bounce (and when the ball already overlaps a
paddle the bounds check is skipped entirely, so this weaker bound needs the
no-overlap hypothesis). -/
theorem C2_vertical_bounds_overshoot (b : Ball) (pa pb : Rect) (jv jh : ℤ)
    (hy0 : 0 ≤ b.y) (hy1 : b.y ≤ b.window_height - b.height)
    (he : (Rect.colliderect b.rect pa || Rect.colliderect b.rect pb) = false) :
    -1 ≤ (b.move pa pb jv jh).y ∧
    (b.move pa pb jv jh).y ≤ b.window_height - b.height + 1 := by
  simp only [Ball.move, he]
  exact vsweep_y_range pa pb b.width b.height b.window_height b.max_speed b.x
    (get_step_increment b.vy) jv (get_step_increment_cases b.vy)
    b.vy.natAbs b.y b.vy hy0 hy1

/-- Witness for C2: the amended bound at the concrete input of the
counterexample, whose move ends at y = -1 ∈ [-1, 711]. -/
theorem C2_witness :
    -1 ≤ (Ball.move bC2 paC2 pbC2 1 1).y ∧
    (Ball.move bC2 paC2 pbC2 1 1).y ≤ bC2.window_height - bC2.height + 1 :=
  C2_vertical_bounds_overshoot bC2 paC2 pbC2 1 1 (by decide) (by decide) (by decide)

/-! ## C5: collision-free frames move by exactly (vx, vy) -/

/-- If every tentative y of the vertical sweep is in bounds and collides with
no paddle, the sweep runs to completion: y advances by one unit per iteration
and vy is unchanged.  This holds for either value of the early guard. -/
lemma vsweep_no_event (pa pb : Rect) (w h H M x ystep jv : ℤ) (early : Bool) :
    ∀ (n : ℕ) (y vy : ℤ),
      (∀ k : ℕ, k < n →
        (0 ≤ y + ((k : ℤ) + 1) * ystep ∧ y + ((k : ℤ) + 1) * ystep ≤ H - h) ∧
        (Rect.colliderect ⟨x, y + ((k : ℤ) + 1) * ystep, w, h⟩ pa ||
         Rect.colliderect ⟨x, y + ((k : ℤ) + 1) * ystep, w, h⟩ pb) = false) →
      vsweep pa pb w h H M x ystep jv early n y vy = (y + (n : ℤ) * ystep, vy) := by
  intro n
  induction n with
  | zero =>
    intro y vy _
    simp [vsweep]
  | succ k ih =>
    intro y vy hall
    have h0 := hall 0 (by omega)
    rw [show y + ((0 : ℕ) + 1 : ℤ) * ystep = y + ystep by push_cast; ring] at h0
    simp only [vsweep]
    rw [if_neg (by rintro ⟨-, hnb⟩; exact hnb h0.1), if_neg (by simp [h0.2])]
    rw [ih (y + ystep) vy ?_]
    · refine Prod.ext ?_ rfl
      push_cast
      ring
    · intro j hj
      have e : y + ystep + ((j : ℤ) + 1) * ystep = y + (((j + 1 : ℕ) : ℤ) + 1) * ystep := by
        push_cast
        ring
      rw [e]
      exact hall (j + 1) (by omega)

/-- If every tentative x of the horizontal sweep collides with no paddle, the
sweep runs to completion: x advances by one unit per iteration and vx, vy are
unchanged.  This holds for either value of the early guard. -/
lemma hsweep_no_event (pa pb : Rect) (w h M xstep jh y : ℤ) (early : Bool) :
    ∀ (n : ℕ) (x vx vy : ℤ),
      (∀ k : ℕ, k < n →
        (Rect.colliderect ⟨x + ((k : ℤ) + 1) * xstep, y, w, h⟩ pa ||
         Rect.colliderect ⟨x + ((k : ℤ) + 1) * xstep, y, w, h⟩ pb) = false) →
      hsweep pa pb w h M xstep jh early y n x vx vy = (x + (n : ℤ) * xstep, vx, vy) := by
  intro n
  induction n with
  | zero =>
    intro x vx vy _
    simp [hsweep]
  | succ k ih =>
    intro x vx vy hall
    have h0 := hall 0 (by omega)
    rw [show x + ((0 : ℕ) + 1 : ℤ) * xstep = x + xstep by push_cast; ring] at h0
    simp only [hsweep]
    rw [if_neg (by rintro ⟨-, hcc⟩; rw [h0] at hcc; exact Bool.false_ne_true hcc)]
    rw [ih (x + xstep) vx vy ?_]
    · refine Prod.ext ?_ rfl
      push_cast
      ring
    · intro j hj
      have e : x + xstep + ((j : ℤ) + 1) * xstep = x + (((j + 1 : ℕ) : ℤ) + 1) * xstep := by
        push_cast
        ring
      rw [e]
      exact hall (j + 1) (by omega)

/-- Claim C5: when no tentative rectangle of either sweep overlaps a paddle
and every tentative y of the vertical sweep stays within the vertical bounds,
move leaves vx and vy unchanged and advances the position by exactly
(vx, vy). -/
theorem C5_no_collision_exact_move (b : Ball) (pa pb : Rect) (jv jh : ℤ)
    (hvert : ∀ k : ℕ, k < b.vy.natAbs →
      (0 ≤ b.y + ((k : ℤ) + 1) * get_step_increment b.vy ∧
       b.y + ((k : ℤ) + 1) * get_step_increment b.vy ≤ b.window_height - b.height) ∧
      (Rect.colliderect ⟨b.x, b.y + ((k : ℤ) + 1) * get_step_increment b.vy, b.width, b.height⟩ pa ||
       Rect.colliderect ⟨b.x, b.y + ((k : ℤ) + 1) * get_step_increment b.vy, b.width, b.height⟩ pb)
        = false)
    (hhoriz : ∀ k : ℕ, k < b.vx.natAbs →
      (Rect.colliderect ⟨b.x + ((k : ℤ) + 1) * get_step_increment b.vx, b.y + b.vy, b.width, b.height⟩ pa ||
       Rect.colliderect ⟨b.x + ((k : ℤ) + 1) * get_step_increment b.vx, b.y + b.vy, b.width, b.height⟩ pb)
        = false) :
    b.move pa pb jv jh = { b with x := b.x + b.vx, y := b.y + b.vy } := by
  have hv := vsweep_no_event pa pb b.width b.height b.window_height b.max_speed b.x
    (get_step_increment b.vy) jv
    (Rect.colliderect b.rect pa || Rect.colliderect b.rect pb)
    b.vy.natAbs b.y b.vy hvert
  rw [natAbs_mul_step] at hv
  have hh := hsweep_no_event pa pb b.width b.height b.max_speed
    (get_step_increment b.vx) jh (b.y + b.vy)
    (Rect.colliderect b.rect pa || Rect.colliderect b.rect pb)
    b.vx.natAbs b.x b.vx b.vy hhoriz
  rw [natAbs_mul_step] at hh
  simp only [Ball.move, hv, hh]

/-- Ball for the C5 witness: the scenario of the spec, arena 1080 by 720,
ball at the center with vx = 14 and vy = 0, paddles at the reset geometry
(nowhere near the ball). -/
def bC5 : Ball := ⟨10, 10, 720, 1080, 30, true, 540, 360, 14, 0⟩

/-- Left paddle rectangle for C5. -/
def paC5 : Rect := ⟨50, 300, 20, 120⟩

/-- Right paddle rectangle for C5. -/
def pbC5 : Rect := ⟨1010, 300, 20, 120⟩

/-- Witness for C5 at the scenario of the spec: after one frame x increased by
exactly 14 and y is unchanged, with no reflection. -/
theorem C5_witness :
    Ball.move bC5 paC5 pbC5 1 1 = { bC5 with x := bC5.x + bC5.vx, y := bC5.y + bC5.vy } :=
  C5_no_collision_exact_move bC5 paC5 pbC5 1 1 (by decide) (by decide)

/-! ## C6: |vx| ≤ max_speed and |vy| ≤ max_speed is an invariant -/

/-- The vertical sweep keeps vy in [-M, M]: it either leaves vy unchanged or
clamps the reflected value into [-M, M]. -/
lemma vsweep_vy_range (pa pb : Rect) (w h H M x ystep jv : ℤ) (early : Bool) :
    ∀ (n : ℕ) (y vy : ℤ), -M ≤ vy → vy ≤ M →
      -M ≤ (vsweep pa pb w h H M x ystep jv early n y vy).2 ∧
      (vsweep pa pb w h H M x ystep jv early n y vy).2 ≤ M := by
  intro n
  induction n with
  | zero =>
    intro y vy h0 h1
    simp only [vsweep]
    exact ⟨h0, h1⟩
  | succ k ih =>
    intro y vy h0 h1
    have hMM : -M ≤ M := le_trans h0 h1
    simp only [vsweep]
    split_ifs with hb hc
    · exact clip_range _ _ _ hMM
    · exact clip_range _ _ _ hMM
    · exact ih (y + ystep) vy h0 h1

/-- The horizontal sweep keeps vx and vy in [-M, M]: it either leaves them
unchanged or clamps the reflected values into [-M, M]. -/
lemma hsweep_v_range (pa pb : Rect) (w h M xstep jh y : ℤ) (early : Bool) :
    ∀ (n : ℕ) (x vx vy : ℤ), -M ≤ vx → vx ≤ M → -M ≤ vy → vy ≤ M →
      -M ≤ (hsweep pa pb w h M xstep jh early y n x vx vy).2.1 ∧
      (hsweep pa pb w h M xstep jh early y n x vx vy).2.1 ≤ M ∧
      -M ≤ (hsweep pa pb w h M xstep jh early y n x vx vy).2.2 ∧
      (hsweep pa pb w h M xstep jh early y n x vx vy).2.2 ≤ M := by
  intro n
  induction n with
  | zero =>
    intro x vx vy hx0 hx1 hy0 hy1
    simp only [hsweep]
    exact ⟨hx0, hx1, hy0, hy1⟩
  | succ k ih =>
    intro x vx vy hx0 hx1 hy0 hy1
    have hMM : -M ≤ M := le_trans hx0 hx1
    simp only [hsweep]
    split_ifs with hb
    · exact ⟨(clip_range _ _ _ hMM).1, (clip_range _ _ _ hMM).2,
        (clip_range _ _ _ hMM).1, (clip_range _ _ _ hMM).2⟩
    · exact ih (x + xstep) vx vy hx0 hx1 hy0 hy1

/-- Claim C6: the velocity-magnitude invariant.  spawn establishes
-max_speed ≤ vx, vy ≤ max_speed for max_speed = 30 and any draws from the
spawn choice sets, and move preserves it for any jitters: every reflection
branch clamps the new velocity into [-max_speed, max_speed]. -/
theorem C6_velocity_invariant (b : Ball) (pa pb : Rect) (speed vy0 jv jh : ℤ)
    (hs : speed = 10 ∨ speed = 12 ∨ speed = 14)
    (hv : vy0 = -6 ∨ vy0 = -4 ∨ vy0 = -2 ∨ vy0 = 2 ∨ vy0 = 4 ∨ vy0 = 6)
    (hM : b.max_speed = 30)
    (hbx0 : -b.max_speed ≤ b.vx) (hbx1 : b.vx ≤ b.max_speed)
    (hby0 : -b.max_speed ≤ b.vy) (hby1 : b.vy ≤ b.max_speed) :
    (-(b.spawn speed vy0).max_speed ≤ (b.spawn speed vy0).vx ∧
     (b.spawn speed vy0).vx ≤ (b.spawn speed vy0).max_speed ∧
     -(b.spawn speed vy0).max_speed ≤ (b.spawn speed vy0).vy ∧
     (b.spawn speed vy0).vy ≤ (b.spawn speed vy0).max_speed) ∧
    (-(b.move pa pb jv jh).max_speed ≤ (b.move pa pb jv jh).vx ∧
     (b.move pa pb jv jh).vx ≤ (b.move pa pb jv jh).max_speed ∧
     -(b.move pa pb jv jh).max_speed ≤ (b.move pa pb jv jh).vy ∧
     (b.move pa pb jv jh).vy ≤ (b.move pa pb jv jh).max_speed) := by
  constructor
  · simp only [Ball.spawn]
    rw [hM]
    rcases hs with rfl | rfl | rfl <;>
      rcases hv with rfl | rfl | rfl | rfl | rfl | rfl <;>
        cases hb : b.last_serve_left <;> simp [hb]
  · have hvv := vsweep_vy_range pa pb b.width b.height b.window_height b.max_speed b.x
      (get_step_increment b.vy) jv
      (Rect.colliderect b.rect pa || Rect.colliderect b.rect pb)
      b.vy.natAbs b.y b.vy hby0 hby1
    have hhh := hsweep_v_range pa pb b.width b.height b.max_speed
      (get_step_increment b.vx) jh
      ((vsweep pa pb b.width b.height b.window_height b.max_speed b.x
        (get_step_increment b.vy) jv
        (Rect.colliderect b.rect pa || Rect.colliderect b.rect pb)
        b.vy.natAbs b.y b.vy).1)
      (Rect.colliderect b.rect pa || Rect.colliderect b.rect pb)
      b.vx.natAbs b.x b.vx
      ((vsweep pa pb b.width b.height b.window_height b.max_speed b.x
        (get_step_increment b.vy) jv
        (Rect.colliderect b.rect pa || Rect.colliderect b.rect pb)
        b.vy.natAbs b.y b.vy).2)
      hbx0 hbx1 hvv.1 hvv.2
    simp only [Ball.move]
    exact hhh

/-- A concrete ball for the C6 witness. -/
def bC6 : Ball := ⟨10, 10, 720, 1080, 30, true, 540, 360, 3, 2⟩

/-- Left paddle rectangle for C6. -/
def paC6 : Rect := ⟨50, 300, 20, 120⟩

/-- Right paddle rectangle for C6. -/
def pbC6 : Rect := ⟨1010, 300, 20, 120⟩

/-- Witness for C6 at a concrete ball state with max_speed 30. -/
theorem C6_witness :
    (-(bC6.spawn 10 (-4)).max_speed ≤ (bC6.spawn 10 (-4)).vx ∧
     (bC6.spawn 10 (-4)).vx ≤ (bC6.spawn 10 (-4)).max_speed ∧
     -(bC6.spawn 10 (-4)).max_speed ≤ (bC6.spawn 10 (-4)).vy ∧
     (bC6.spawn 10 (-4)).vy ≤ (bC6.spawn 10 (-4)).max_speed) ∧
    (-(bC6.move paC6 pbC6 1 1).max_speed ≤ (bC6.move paC6 pbC6 1 1).vx ∧
     (bC6.move paC6 pbC6 1 1).vx ≤ (bC6.move paC6 pbC6 1 1).max_speed ∧
     -(bC6.move paC6 pbC6 1 1).max_speed ≤ (bC6.move paC6 pbC6 1 1).vy ∧
     (bC6.move paC6 pbC6 1 1).vy ≤ (bC6.move paC6 pbC6 1 1).max_speed) :=
  C6_velocity_invariant bC6 paC6 pbC6 10 (-4) 1 1
    (Or.inl rfl) (Or.inr (Or.inl rfl)) rfl (by decide) (by decide) (by decide) (by decide)

/-! ## C7: scoring transition after the repeats -/

/-- Claim C7: after the step_repeat sub-frames produce the intermediate state
g2, the controller branches on the horizontal center of the ball: center < 0
increments player_1_score by one, computes rewards (+1, -1) and respawns the
ball; center > window_width increments player_2_score by one, computes
rewards (-1, +1) and respawns; otherwise scores, ball and rewards are
untouched. -/
theorem C7_goal_scoring (g : PongGame) (a1 a2 : ℕ) (js : List (ℤ × ℤ))
    (speed vy0 : ℤ) (g2 : PongGame)
    (_hlen : js.length = g.step_repeat)
    (hrep : stepRepeats a1 a2 js g = some g2) :
    (ball_center g2.ball < 0 →
      PongGame.step g a1 a2 js speed vy0 = some
        { game := { g2 with player_1_score := g2.player_1_score + 1
                            ball := g2.ball.spawn speed vy0 }
          player_1_reward := 1, player_2_reward := -1, done := false, ret := none }) ∧
    (¬ ball_center g2.ball < 0 → ball_center g2.ball > (g2.window_width : ℚ) →
      PongGame.step g a1 a2 js speed vy0 = some
        { game := { g2 with player_2_score := g2.player_2_score + 1
                            ball := g2.ball.spawn speed vy0 }
          player_1_reward := -1, player_2_reward := 1, done := false, ret := none }) ∧
    (¬ ball_center g2.ball < 0 → ¬ ball_center g2.ball > (g2.window_width : ℚ) →
      PongGame.step g a1 a2 js speed vy0 = some
        { game := g2, player_1_reward := 0, player_2_reward := 0
          done := false, ret := none }) := by
  unfold PongGame.step
  rw [hrep]
  dsimp only
  refine ⟨?_, ?_, ?_⟩
  · intro h1
    rw [if_pos h1]
  · intro h1 h2
    rw [if_neg h1, if_pos h2]
  · intro h1 h2
    rw [if_neg h1, if_neg h2]

/-- Left paddle for the C7 witness (reset geometry). -/
def pLC7 : Paddle := ⟨50, 300, 20, 120, 720, 15⟩

/-- Right paddle for the C7 witness (reset geometry). -/
def pRC7 : Paddle := ⟨1010, 300, 20, 120, 720, 15⟩

/-- Game state for the C7 witness: step_repeat 1, ball at the center. -/
def gC7 : PongGame :=
  ⟨1080, 720, 1, 0, 0, 20, pLC7, pRC7, ⟨10, 10, 720, 1080, 30, true, 540, 360, 10, 2⟩⟩

/-- The state after the single sub-frame of the C7 witness: the ball drifted
to (550, 362), everything else unchanged. -/
def g2C7 : PongGame :=
  ⟨1080, 720, 1, 0, 0, 20, pLC7, pRC7, ⟨10, 10, 720, 1080, 30, true, 550, 362, 10, 2⟩⟩

/-- Witness for C7: with the ball center well inside the arena, a step leaves
both scores at zero, gives zero rewards and does not respawn. -/
theorem C7_witness :
    PongGame.step gC7 0 0 [(1, 1)] 10 2 = some
      { game := g2C7, player_1_reward := 0, player_2_reward := 0
        done := false, ret := none } :=
  (C7_goal_scoring gC7 0 0 [(1, 1)] 10 2 g2C7 rfl (by decide)).2.2
    (by norm_num [ball_center, g2C7]) (by norm_num [ball_center, g2C7])

/-! ## C8: step computes the tuple but returns None (corrected) -/

/-- Left paddle for the C8 theorems (reset geometry). -/
def pLC8 : Paddle := ⟨50, 300, 20, 120, 720, 15⟩

/-- Right paddle for the C8 theorems (reset geometry). -/
def pRC8 : Paddle := ⟨1010, 300, 20, 120, 720, 15⟩

/-- Game state for the C8 theorems: step_repeat 1, ball at the center. -/
def gC8 : PongGame :=
  ⟨1080, 720, 1, 0, 0, 20, pLC8, pRC8, ⟨10, 10, 720, 1080, 30, true, 540, 360, 10, 2⟩⟩

/-- The state after the single sub-frame of the C8 run. -/
def g2C8 : PongGame :=
  ⟨1080, 720, 1, 0, 0, 20, pLC8, pRC8, ⟨10, 10, 720, 1080, 30, true, 550, 362, 10, 2⟩⟩

/-- The step outcome of the C8 run. -/
def rC8 : StepResult := ⟨g2C8, 0, 0, false, none⟩

/-- Counterexample to claim C8: at a concrete state and valid action pair the
function body of step runs to completion (the sub-frames advance, the reward
and done locals are computed), but the Python return value is None — there is
no return statement in the source — so step does not return the claimed
4-tuple. -/
theorem C8_counterexample :
    (PongGame.step gC8 0 0 [(1, 1)] 10 2).map StepResult.ret = some none ∧
    (PongGame.step gC8 0 0 [(1, 1)] 10 2).map StepResult.done = some false := by
  have hrep : stepRepeats 0 0 [(1, 1)] gC8 = some g2C8 := by decide
  unfold PongGame.step
  rw [hrep]
  dsimp only
  rw [if_neg (by norm_num [ball_center, g2C8]), if_neg (by norm_num [ball_center, g2C8])]
  exact ⟨rfl, rfl⟩

/-- Claim C8 as amended: for every state and action pair, step advances the
step_repeat sub-frames and computes reward_1, reward_2 and done as locals,
with done = false always — top_score is never consulted — but it returns
None instead of the (reward_1, reward_2, done, info) tuple. -/
theorem C8_step_returns_none (g : PongGame) (a1 a2 : ℕ) (js : List (ℤ × ℤ))
    (speed vy0 : ℤ) (r : StepResult)
    (_hlen : js.length = g.step_repeat)
    (hr : PongGame.step g a1 a2 js speed vy0 = some r) :
    r.done = false ∧ r.ret = none := by
  unfold PongGame.step at hr
  cases hrep : stepRepeats a1 a2 js g with
  | none =>
    rw [hrep] at hr
    cases hr
  | some g2 =>
    rw [hrep] at hr
    dsimp only at hr
    split_ifs at hr <;>
      (simp only [Option.some.injEq] at hr; subst hr; exact ⟨rfl, rfl⟩)

/-- Witness for C8: the amended statement at the concrete run of the
counterexample. -/
theorem C8_witness : rC8.done = false ∧ rC8.ret = none :=
  C8_step_returns_none gC8 0 0 [(1, 1)] 10 2 rC8 rfl (by
    have hrep : stepRepeats 0 0 [(1, 1)] gC8 = some g2C8 := by decide
    unfold PongGame.step
    rw [hrep]
    dsimp only
    rw [if_neg (by norm_num [ball_center, g2C8]), if_neg (by norm_num [ball_center, g2C8])]
    rfl)

end Pong
